import Mathlib

/-
Verification model of the cell-culture controller firmware
(src/src/arduino/cell_culture_controller/cell_culture_controller.ino).

The firmware is shallowly embedded: each C function becomes a Lean
function over an explicit controller state `Ctrl`.  External inputs that
the firmware samples (the serial line, the millis clock, scale readings,
limit-switch reads) are passed as explicit arguments.  Blocking loops
(dispensing, homing) consume a finite trace of sensor readings and
return `none` when the trace is exhausted before the loop exits, so
`some` results are exactly the terminating executions.  `float`
quantities are modelled as rationals (float rounding is out of scope);
`millis()` timestamps are unsigned 32-bit values, with wrap-around
subtraction modelled explicitly by `u32sub`.
-/

/- `const unsigned long STERILIZATION_TIME = 300000;` -/
def STERILIZATION_TIME : Nat := 300000

/- `const int SERVO_SPEED_DELAY = 15;` -/
def SERVO_SPEED_DELAY : Nat := 15

/- Modulus of the 32-bit unsigned arithmetic used by `millis()`. -/
def U32 : Nat := 2 ^ 32

/- Unsigned 32-bit subtraction, as in `millis() - sterilizationStartTime`. -/
def u32sub (a b : Nat) : Nat :=
  (a % U32 + (U32 - b % U32)) % U32

/- A frame written to the serial channel: `sendAck` prints the literal
`OK`; `sendError` prints a JSON object carrying the error message. -/
inductive Response where
  | ok : Response
  | error : String → Response
deriving DecidableEq

/- The controller's global state: the five `SystemState` globals
(`isRunning`, `isSterilizing`, `targetVolume`, `currentWeight`,
`sterilizationStartTime`) together with the actuator outputs the
firmware drives (servo attach state and commanded angles, the pump pin
and the UV pin). -/
structure Ctrl where
  isRunning : Bool
  isSterilizing : Bool
  targetVolume : ℚ
  currentWeight : ℚ
  sterilizationStartTime : Nat
  servoXAttached : Bool
  servoYAttached : Bool
  servoZAttached : Bool
  posX : Int
  posY : Int
  posZ : Int
  pump : Bool
  uv : Bool
deriving DecidableEq

/- State right after `setup()` has homed the axes and set `isRunning`. -/
def bootCtrl : Ctrl :=
  { isRunning := true
    isSterilizing := false
    targetVolume := 0
    currentWeight := 0
    sterilizationStartTime := 0
    servoXAttached := true
    servoYAttached := true
    servoZAttached := true
    posX := 5
    posY := 5
    posZ := 5
    pump := false
    uv := false }

/- Arduino `constrain(amt, low, high)`. -/
def constrain (v lo hi : Int) : Int :=
  if v < lo then lo else if hi < v then hi else v

/- Arduino `map(x, in_min, in_max, out_min, out_max)` (integer
division truncating toward zero, as in C). -/
def arduinoMap (x inMin inMax outMin outMax : Int) : Int :=
  Int.tdiv ((x - inMin) * (outMax - outMin)) (inMax - inMin) + outMin

/- Parameter extraction of `moveRobotArm`: `doc["x"] | 90` yields the
default when the field is absent, then `constrain` clamps. -/
def moveParams (x? y? z? s? : Option Int) : Int × Int × Int × Int :=
  (constrain (x?.getD 90) 0 180,
   constrain (y?.getD 90) 0 180,
   constrain (z?.getD 90) 0 180,
   constrain (s?.getD 50) 1 100)

/- `moveRobotArm`: clamp the parameters, compute the inter-step delay,
move each servo to its clamped target (a `moveServoSmooth` call ends
with the servo at the target angle), then `sendAck()`. -/
def moveRobotArm (st : Ctrl) (x? y? z? s? : Option Int) : Ctrl × List Response :=
  let p := moveParams x? y? z? s?
  let _moveDelay := arduinoMap p.2.2.2 1 100 50 5
  ({ st with posX := p.1, posY := p.2.1, posZ := p.2.2.1 }, [Response.ok])

/- The Arduino `abs` macro, literally `((x)>(0)?(x):-(x))`. -/
def arduinoAbs (x : ℚ) : ℚ := if 0 < x then x else -x

/- The `while (currentWeight < targetWeight)` loop of `dispenseLiquid`.
Arguments: the target weight, the current value of the `currentWeight`
global, and the trace of values `scale.get_units()` will return.  Each
iteration writes the pump pin HIGH (recorded in the returned write
trace), samples the scale into `currentWeight`, and breaks early when
`abs(currentWeight - targetWeight) < 0.1`.  Returns the final
`currentWeight` and the trace of pump-pin writes made inside the loop,
or `none` when the sample trace runs out with the loop still running. -/
def dispenseLoop (target : ℚ) : ℚ → List ℚ → Option (ℚ × List Bool)
  | w, [] => if w < target then none else some (w, [])
  | w, s :: rest =>
    if w < target then
      if arduinoAbs (s - target) < 0.1 then
        some (s, [true])
      else
        (dispenseLoop target s rest).map fun r => (r.1, true :: r.2)
    else
      some (w, [])

/- `dispenseLiquid`: `targetWeight = volume` (1 ml = 1 g); the
`scale.tare()` call re-zeroes the sensor but does not assign the
`currentWeight` global; then the closed loop runs, the pump pin is
written LOW unconditionally, and `sendAck()` is sent.  The middle
component of the result is the full trace of pump-pin writes. -/
def dispenseLiquid (st : Ctrl) (volume : ℚ) (samples : List ℚ) :
    Option (Ctrl × List Bool × List Response) :=
  let targetWeight := volume
  match dispenseLoop targetWeight st.currentWeight samples with
  | none => none
  | some (w, writes) =>
      some ({ st with currentWeight := w, pump := false },
            writes ++ [false], [Response.ok])

/- `startSterilization`: only when not already sterilizing does it turn
the UV pin on, set the flag, record `millis()` and `sendAck()`; when
already sterilizing it does nothing and sends nothing. -/
def startSterilization (st : Ctrl) (now : Nat) : Ctrl × List Response :=
  if st.isSterilizing then
    (st, [])
  else
    ({ st with uv := true, isSterilizing := true, sterilizationStartTime := now },
     [Response.ok])

/- `stopSterilization`: UV pin LOW, flag cleared, no response. -/
def stopSterilization (st : Ctrl) : Ctrl :=
  { st with uv := false, isSterilizing := false }

/- The sterilization check in `loop()`:
`if (isSterilizing) if (millis() - sterilizationStartTime >= STERILIZATION_TIME) stopSterilization();` -/
def sterCheck (st : Ctrl) (now : Nat) : Ctrl :=
  if st.isSterilizing then
    if STERILIZATION_TIME ≤ u32sub now st.sterilizationStartTime then
      stopSterilization st
    else st
  else st

/- `emergencyStop`: detach all three servos, pump pin LOW, UV pin LOW,
clear `isRunning` and `isSterilizing`, send one error frame. -/
def emergencyStop (st : Ctrl) : Ctrl × List Response :=
  ({ st with
      servoXAttached := false
      servoYAttached := false
      servoZAttached := false
      pump := false
      uv := false
      isRunning := false
      isSterilizing := false },
   [Response.error "Emergency stop triggered"])

/- `checkLimitSwitches`: `rx ry rz` are the three `digitalRead` values
this tick; any LOW (false) read forces `emergencyStop()`. -/
def checkLimitSwitches (st : Ctrl) (rx ry rz : Bool) : Ctrl × List Response :=
  if !rx || !ry || !rz then emergencyStop st else (st, [])

/- A parsed command frame, as dispatched by `processCommand` on the
`cmd` string.  Absent MOVE fields are `none`. -/
inductive Command where
  | move (x? y? z? s? : Option Int)
  | dispense (volume : ℚ) (pumpId : Int)
  | sterilize
  | emergencyStopCmd
  | unknown (c : String)
deriving DecidableEq

/- `processCommand`: dispatch on `cmd` to exactly one handler, or send
the unknown-command error.  `now` is the `millis()` value seen by
`startSterilization`; `samples` feeds `dispenseLiquid` (whose `pump`
parameter the firmware reads but never uses). -/
def processCommand (st : Ctrl) (c : Command) (now : Nat) (samples : List ℚ) :
    Option (Ctrl × List Response) :=
  match c with
  | .move x? y? z? s? => some (moveRobotArm st x? y? z? s?)
  | .dispense v _ => (dispenseLiquid st v samples).map fun r => (r.1, r.2.2)
  | .sterilize => some (startSterilization st now)
  | .emergencyStopCmd => some (emergencyStop st)
  | .unknown _ => some (st, [Response.error "Unknown command"])

/- What `Serial.available()` / `readStringUntil` / `deserializeJson`
yield on a given tick: no pending line, a line that fails to parse, or
a parsed command frame. -/
inductive SerialInput where
  | noInput
  | malformed
  | request (c : Command)
deriving DecidableEq

/- The serial-handling prefix of `loop()` up to (not including) the
sterilization check: nothing pending does nothing, a parse error sends
the invalid-JSON frame, a parsed frame is dispatched. -/
def handleSerial (st : Ctrl) (inp : SerialInput) (now : Nat) (samples : List ℚ) :
    Option (Ctrl × List Response) :=
  match inp with
  | .noInput => some (st, [])
  | .malformed => some (st, [Response.error "Invalid JSON command"])
  | .request c => processCommand st c now samples

/- One full iteration of `loop()`.  On a parse error the firmware
executes `return;`, so the sterilization check and the limit-switch
check are skipped on that tick; otherwise the tick runs the serial
handler, then `sterCheck`, then `checkLimitSwitches` with this tick's
three limit-switch reads.  `none` means the tick blocked forever inside
a handler (sample trace exhausted). -/
def loopTick (st : Ctrl) (inp : SerialInput) (now : Nat) (samples : List ℚ)
    (rx ry rz : Bool) : Option (Ctrl × List Response) :=
  match inp with
  | .malformed => some (st, [Response.error "Invalid JSON command"])
  | _ =>
    match handleSerial st inp now samples with
    | none => none
    | some (st1, rs1) =>
        let st2 := sterCheck st1 now
        let r3 := checkLimitSwitches st2 rx ry rz
        some (r3.1, rs1 ++ r3.2)

/- The environment one tick observes: the serial input, the `millis()`
value, the scale-sample trace, and the three limit-switch reads. -/
structure TickEnv where
  inp : SerialInput
  now : Nat
  samples : List ℚ
  rx : Bool
  ry : Bool
  rz : Bool

/- Run a sequence of loop iterations. -/
def runTicks : Ctrl → List TickEnv → Option Ctrl
  | st, [] => some st
  | st, e :: rest =>
    match loopTick st e.inp e.now e.samples e.rx e.ry e.rz with
    | none => none
    | some (st', _) => runTicks st' rest

/- The `while` loop of `homeAxes`.  Each iteration consumes one triple
of `digitalRead` values (reads are treated as stable within an
iteration): while any read is LOW (false) the loop continues, and every
axis whose read is LOW is commanded to angle 0 by `servo.write(0)`.
Returns the commanded positions at loop exit, or `none` when the read
trace ends with the loop still running. -/
def homeLoop : Int × Int × Int → List (Bool × Bool × Bool) → Option (Int × Int × Int)
  | _, [] => none
  | p, (rx, ry, rz) :: rest =>
    if !rx || !ry || !rz then
      homeLoop (if !rx then 0 else p.1, if !ry then 0 else p.2.1,
                if !rz then 0 else p.2.2) rest
    else
      some p

/- `homeAxes`: run the homing loop, then command every axis to angle 5
(`servoX.write(5); servoY.write(5); servoZ.write(5);`). -/
def homeAxes (p : Int × Int × Int) (reads : List (Bool × Bool × Bool)) :
    Option (Int × Int × Int) :=
  (homeLoop p reads).map fun _ => ((5 : Int), (5 : Int), (5 : Int))

/- ### General lemmas about the embedded operations -/

/- Unsigned 32-bit subtraction agrees with truncated subtraction while
the clock has not wrapped past the start timestamp. -/
theorem u32sub_eq_sub (a b : Nat) (hba : b ≤ a) (ha : a < U32) :
    u32sub a b = a - b := by
  have hb : b < U32 := lt_of_le_of_lt hba ha
  have hsub : a - b < U32 := lt_of_le_of_lt (Nat.sub_le a b) ha
  unfold u32sub
  rw [Nat.mod_eq_of_lt ha, Nat.mod_eq_of_lt hb]
  have hx : a + (U32 - b) = (a - b) + U32 := by omega
  rw [hx, Nat.add_mod_right, Nat.mod_eq_of_lt hsub]

/- `constrain` lands in the requested interval. -/
theorem constrain_mem (v lo hi : Int) (h : lo ≤ hi) :
    lo ≤ constrain v lo hi ∧ constrain v lo hi ≤ hi := by
  unfold constrain
  split_ifs <;> omega

/- The Arduino `abs` macro is the absolute value. -/
theorem arduinoAbs_eq_abs (x : ℚ) : arduinoAbs x = |x| := by
  unfold arduinoAbs
  rcases lt_trichotomy 0 x with h | h | h
  · rw [if_pos h, abs_of_pos h]
  · simp [← h]
  · rw [if_neg (by linarith), abs_of_neg h]

/- Any terminating run of the dispensing loop ends with
`currentWeight` strictly above `target - 0.1`: the break needs
`|sample - target| < 0.1` and the guard exit needs `target ≤ weight`. -/
theorem dispenseLoop_final_gt (target : ℚ) :
    ∀ (samples : List ℚ) (w w' : ℚ) (ps : List Bool),
      dispenseLoop target w samples = some (w', ps) → target - 0.1 < w' := by
  intro samples
  induction samples with
  | nil =>
    intro w w' ps h
    simp only [dispenseLoop] at h
    split at h
    · exact absurd h (by simp)
    · rename_i hge
      obtain ⟨hw, -⟩ := Prod.mk.injEq .. ▸ Option.some.injEq .. ▸ h
      have h01 : (0 : ℚ) < 0.1 := by norm_num
      push_neg at hge
      linarith [hw ▸ hge]
  | cons s rest ih =>
    intro w w' ps h
    simp only [dispenseLoop] at h
    split at h
    · split at h
      · rename_i habs
        rw [arduinoAbs_eq_abs] at habs
        obtain ⟨hw, -⟩ := Prod.mk.injEq .. ▸ Option.some.injEq .. ▸ h
        have h1 : target - s ≤ |s - target| := by
          rw [abs_sub_comm]; exact le_abs_self _
        subst hw
        linarith
      · rw [Option.map_eq_some'] at h
        obtain ⟨⟨w1, ps1⟩, hrec, hf⟩ := h
        obtain ⟨hw, -⟩ := Prod.mk.injEq .. ▸ hf
        exact hw ▸ ih s w1 ps1 hrec
    · rename_i hge
      obtain ⟨hw, -⟩ := Prod.mk.injEq .. ▸ Option.some.injEq .. ▸ h
      have h01 : (0 : ℚ) < 0.1 := by norm_num
      push_neg at hge
      linarith [hw ▸ hge]

/- A terminating homing loop consumed an all-HIGH read triple, and it
exited at the first such triple. -/
theorem homeLoop_exit_read :
    ∀ (reads : List (Bool × Bool × Bool)) (p q : Int × Int × Int),
      homeLoop p reads = some q →
      ∃ pre post, reads = pre ++ (true, true, true) :: post ∧
        ∀ r ∈ pre, r ≠ (true, true, true) := by
  intro reads
  induction reads with
  | nil => intro p q h; simp [homeLoop] at h
  | cons r rest ih =>
    intro p q h
    obtain ⟨rx, ry, rz⟩ := r
    simp only [homeLoop] at h
    split at h
    · rename_i hc
      obtain ⟨pre, post, hpre, hall⟩ := ih _ _ h
      refine ⟨(rx, ry, rz) :: pre, post, by simp [hpre], ?_⟩
      intro r hr
      rcases List.mem_cons.mp hr with h1 | h2
      · subst h1
        intro heq
        simp_all
      · exact hall r h2
    · rename_i hc
      have hall : rx = true ∧ ry = true ∧ rz = true := by
        cases rx <;> cases ry <;> cases rz <;> simp_all
      exact ⟨[], rest, by simp [hall.1, hall.2.1, hall.2.2], by simp⟩

/- A state in which a sterilization started at millis 0 is in progress. -/
def sterSt : Ctrl :=
  { bootCtrl with isSterilizing := true, uv := true, sterilizationStartTime := 0 }

/- ### Claims -/

/-- Claim C1: executing an emergency stop — whether forced by a fault
read sampled in `checkLimitSwitches` or by the `EMERGENCY_STOP` command,
both of which run the same `emergencyStop` procedure — clears both
`isRunning` and `isSterilizing` in the same step, detaches all three
servos, writes the pump and UV pins LOW, and emits exactly one error
frame. -/
theorem C1_emergency_stop (st : Ctrl) :
    ((emergencyStop st).1.isRunning = false ∧
     (emergencyStop st).1.isSterilizing = false ∧
     (emergencyStop st).1.servoXAttached = false ∧
     (emergencyStop st).1.servoYAttached = false ∧
     (emergencyStop st).1.servoZAttached = false ∧
     (emergencyStop st).1.pump = false ∧
     (emergencyStop st).1.uv = false ∧
     (emergencyStop st).2 = [Response.error "Emergency stop triggered"]) ∧
    (∀ rx ry rz : Bool, (rx && ry && rz) = false →
      checkLimitSwitches st rx ry rz = emergencyStop st) ∧
    (∀ (now : Nat) (samples : List ℚ),
      processCommand st Command.emergencyStopCmd now samples = some (emergencyStop st)) := by
  refine ⟨⟨rfl, rfl, rfl, rfl, rfl, rfl, rfl, rfl⟩, ?_, fun _ _ => rfl⟩
  intro rx ry rz h
  unfold checkLimitSwitches
  cases rx <;> cases ry <;> cases rz <;> simp_all

theorem C1_emergency_stop_witness :
    checkLimitSwitches bootCtrl false true true = emergencyStop bootCtrl ∧
    (emergencyStop bootCtrl).1.isRunning = false ∧
    (emergencyStop bootCtrl).1.pump = false :=
  ⟨(C1_emergency_stop bootCtrl).2.1 false true true rfl,
   (C1_emergency_stop bootCtrl).1.1,
   (C1_emergency_stop bootCtrl).1.2.2.2.2.2.1⟩

/-- Claim C2 (evaluation at the failing input): a `STERILIZE` command
dispatched while `isSterilizing` is already set returns from
`startSterilization` without emitting any response frame at all —
neither the `OK` the claim requires nor an error — so the
one-response-per-request property fails on this input. -/
theorem C2_sterilize_silent :
    processCommand sterSt Command.sterilize 1000 [] = some (sterSt, []) ∧
    ([] : List Response) ≠ [Response.ok] :=
  ⟨rfl, by simp⟩

/-- Claim C4: for every `MOVE` request the parameters actually used are
in range — x, y, z in [0,180] and speed in [1,100] — whatever the
supplied values were; an absent field defaults to 90/90/90/50 before
clamping; and `moveRobotArm` commands the servos to exactly those
clamped values. -/
theorem C4_move_clamping (st : Ctrl) (x? y? z? s? : Option Int) :
    (0 ≤ (moveParams x? y? z? s?).1 ∧ (moveParams x? y? z? s?).1 ≤ 180) ∧
    (0 ≤ (moveParams x? y? z? s?).2.1 ∧ (moveParams x? y? z? s?).2.1 ≤ 180) ∧
    (0 ≤ (moveParams x? y? z? s?).2.2.1 ∧ (moveParams x? y? z? s?).2.2.1 ≤ 180) ∧
    (1 ≤ (moveParams x? y? z? s?).2.2.2 ∧ (moveParams x? y? z? s?).2.2.2 ≤ 100) ∧
    (x? = none → (moveParams x? y? z? s?).1 = 90) ∧
    (y? = none → (moveParams x? y? z? s?).2.1 = 90) ∧
    (z? = none → (moveParams x? y? z? s?).2.2.1 = 90) ∧
    (s? = none → (moveParams x? y? z? s?).2.2.2 = 50) ∧
    (moveRobotArm st x? y? z? s?).1.posX = (moveParams x? y? z? s?).1 ∧
    (moveRobotArm st x? y? z? s?).1.posY = (moveParams x? y? z? s?).2.1 ∧
    (moveRobotArm st x? y? z? s?).1.posZ = (moveParams x? y? z? s?).2.2.1 := by
  refine ⟨constrain_mem _ 0 180 (by omega), constrain_mem _ 0 180 (by omega),
          constrain_mem _ 0 180 (by omega), constrain_mem _ 1 100 (by omega),
          ?_, ?_, ?_, ?_, rfl, rfl, rfl⟩ <;>
    (intro h; subst h; rfl)

theorem C4_move_clamping_witness :
    (moveParams none none none none).1 = 90 ∧
    (moveParams none none none none).2.2.2 = 50 ∧
    1 ≤ (moveParams (some 999) (some (-3)) none (some 1000)).2.2.2 ∧
    (moveParams (some 999) (some (-3)) none (some 1000)).2.2.2 ≤ 100 := by
  obtain ⟨-, -, -, -, hx, -, -, hs, -⟩ := C4_move_clamping bootCtrl none none none none
  obtain ⟨-, -, -, hsp, -⟩ := C4_move_clamping bootCtrl (some 999) (some (-3)) none (some 1000)
  exact ⟨hx rfl, hs rfl, hsp.1, hsp.2⟩

/-- Claim C8: a malformed (unparseable) request line makes the tick emit
exactly one invalid-JSON error frame and leave the whole controller
state — in particular every `SystemState` field — unchanged. -/
theorem C8_malformed_invariant (st : Ctrl) (now : Nat) (samples : List ℚ)
    (rx ry rz : Bool) :
    loopTick st SerialInput.malformed now samples rx ry rz =
      some (st, [Response.error "Invalid JSON command"]) := rfl

/-- Claim C3 (counterexample): with target 10.0 and residual weight 0, a
single scale reading of 10.5 terminates the dispensing loop through the
`while` guard even though 10.5 is outside [9.9, 10.1], so the loop does
not exit only at values within the 0.1 tolerance. -/
theorem C3_overshoot_counterexample :
    dispenseLiquid bootCtrl 10 [10.5] =
      some ({ bootCtrl with currentWeight := 10.5, pump := false },
            [true, false], [Response.ok]) ∧
    ¬ ((10.5 : ℚ) ≤ 10.1) := by
  constructor
  · norm_num [dispenseLiquid, dispenseLoop, arduinoAbs, bootCtrl]
  · norm_num

/-- Claim C3 (amended): every terminating `DISPENSE` leaves the final
sampled weight (or the untouched residual weight when the loop never
ran) strictly above `target - 0.1` — in-tolerance samples exit via the
break, but any sample at or above the target also exits via the `while`
guard, so there is no upper bound of `target + 0.1` — and on every exit
path the last pump-pin write is LOW and the response is the single
`OK`. -/
theorem C3_dispense_exit (st : Ctrl) (volume : ℚ) (samples : List ℚ)
    (st' : Ctrl) (ps : List Bool) (rs : List Response)
    (h : dispenseLiquid st volume samples = some (st', ps, rs)) :
    volume - 0.1 < st'.currentWeight ∧ ps.getLast? = some false ∧
    st'.pump = false ∧ rs = [Response.ok] := by
  cases hd : dispenseLoop volume st.currentWeight samples with
  | none => simp [dispenseLiquid, hd] at h
  | some r =>
    obtain ⟨w, writes⟩ := r
    simp only [dispenseLiquid, hd, Option.some.injEq, Prod.mk.injEq] at h
    obtain ⟨h1, h2, h3⟩ := h
    subst h1 h2 h3
    refine ⟨dispenseLoop_final_gt volume samples st.currentWeight w writes hd, ?_, rfl, rfl⟩
    simp

theorem C3_dispense_exit_witness :
    (10 : ℚ) - 0.1 <
        ({ bootCtrl with currentWeight := 10.05, pump := false } : Ctrl).currentWeight ∧
    ([true, false] : List Bool).getLast? = some false ∧
    ({ bootCtrl with currentWeight := 10.05, pump := false } : Ctrl).pump = false ∧
    ([Response.ok] : List Response) = [Response.ok] :=
  C3_dispense_exit bootCtrl 10 [10.05]
    { bootCtrl with currentWeight := 10.05, pump := false }
    [true, false] [Response.ok]
    (by norm_num [dispenseLiquid, dispenseLoop, arduinoAbs, bootCtrl])

/-- Claim C5 (counterexample): the homing loop does not move an
untriggered axis one degree per iteration — one iteration with the X
switch reading LOW commands the X axis from 90 straight to 0, not
to 89. -/
theorem C5_write_zero_counterexample :
    homeLoop (90, 90, 90) [(false, true, true), (true, true, true)] =
      some (0, 90, 90) ∧
    ¬ (((0 : Int), (90 : Int), (90 : Int)) =
        ((89 : Int), (90 : Int), (90 : Int))) := by
  decide

/-- Claim C5 (amended): each homing iteration commands every axis whose
switch is not triggered directly to angle 0 (not one degree at a time);
the loop terminates only on a read where all three switches are
triggered simultaneously — exiting at the first such read — and the
routine then leaves every axis commanded to exactly 5 degrees. -/
theorem C5_homing :
    (∀ (p : Int × Int × Int) (reads : List (Bool × Bool × Bool))
        (q : Int × Int × Int),
        homeAxes p reads = some q →
        q = ((5 : Int), (5 : Int), (5 : Int)) ∧
        ∃ pre post, reads = pre ++ (true, true, true) :: post ∧
          ∀ r ∈ pre, r ≠ (true, true, true)) ∧
    (∀ (px py pz : Int) (rx ry rz : Bool) (rest : List (Bool × Bool × Bool)),
        (rx && ry && rz) = false →
        homeLoop (px, py, pz) ((rx, ry, rz) :: rest) =
          homeLoop (if rx then px else 0, if ry then py else 0,
                    if rz then pz else 0) rest) := by
  constructor
  · intro p reads q h
    rw [homeAxes, Option.map_eq_some'] at h
    obtain ⟨a, ha, hq⟩ := h
    exact ⟨hq.symm, homeLoop_exit_read reads p a ha⟩
  · intro px py pz rx ry rz rest h
    cases rx <;> cases ry <;> cases rz <;> simp_all [homeLoop]

theorem C5_homing_witness :
    (((5 : Int), (5 : Int), (5 : Int)) = ((5 : Int), (5 : Int), (5 : Int))) ∧
    ∃ pre post,
      [((true : Bool), (true : Bool), (true : Bool))] =
        pre ++ (true, true, true) :: post ∧
      ∀ r ∈ pre, r ≠ (true, true, true) :=
  C5_homing.1 (0, 0, 0) [(true, true, true)] (5, 5, 5) rfl

/-- Claim C10: the weight reading is a global that persists across
commands and `scale.tare()` does not reset it, so a `DISPENSE` whose
target is at most the residual `currentWeight` fails the loop guard
before the first pump activation: it completes at once with a single
`OK`, the only pump-pin write being the final LOW — the pump is never
asserted. -/
theorem C10_stale_weight (st : Ctrl) (volume : ℚ) (samples : List ℚ)
    (h : volume ≤ st.currentWeight) :
    dispenseLiquid st volume samples =
      some ({ st with pump := false }, [false], [Response.ok]) := by
  have hng : ¬ st.currentWeight < volume := not_lt.mpr h
  cases samples with
  | nil => simp [dispenseLiquid, dispenseLoop, hng]
  | cons s rest => simp [dispenseLiquid, dispenseLoop, hng]

/- A state carrying a residual weight reading from an earlier command. -/
def wetSt : Ctrl := { bootCtrl with currentWeight := 12 }

theorem C10_stale_weight_witness :
    dispenseLiquid wetSt 10 [] =
      some ({ wetSt with pump := false }, [false], [Response.ok]) :=
  C10_stale_weight wetSt 10 [] (by decide)

/- ### Preservation lemmas used by the temporal claims -/

/- No handler or check ever sets `isRunning`: only `setup()` does. -/
theorem startSterilization_running (st : Ctrl) (now : Nat) :
    (startSterilization st now).1.isRunning = st.isRunning := by
  unfold startSterilization
  split <;> rfl

theorem sterCheck_running (st : Ctrl) (now : Nat) :
    (sterCheck st now).isRunning = st.isRunning := by
  unfold sterCheck
  split
  · split <;> rfl
  · rfl

theorem dispenseLiquid_running (st : Ctrl) (v : ℚ) (samples : List ℚ)
    (st' : Ctrl) (ps : List Bool) (rs : List Response)
    (h : dispenseLiquid st v samples = some (st', ps, rs)) :
    st'.isRunning = st.isRunning := by
  cases hd : dispenseLoop v st.currentWeight samples with
  | none => simp [dispenseLiquid, hd] at h
  | some r =>
    obtain ⟨w, writes⟩ := r
    simp only [dispenseLiquid, hd, Option.some.injEq, Prod.mk.injEq] at h
    obtain ⟨h1, -⟩ := h
    subst h1
    rfl

theorem processCommand_running (st : Ctrl) (c : Command) (now : Nat)
    (samples : List ℚ) (st' : Ctrl) (rs : List Response)
    (h : processCommand st c now samples = some (st', rs)) :
    st'.isRunning = true → st.isRunning = true := by
  intro hr
  cases c with
  | move x? y? z? s? =>
    injection h with hAB
    have h1 : (moveRobotArm st x? y? z? s?).1 = st' := by rw [hAB]
    rw [← h1] at hr
    exact hr
  | dispense v p =>
    simp only [processCommand, Option.map_eq_some'] at h
    obtain ⟨⟨s2, ps2, rs2⟩, hd, hf⟩ := h
    obtain ⟨h1, -⟩ := Prod.mk.injEq .. ▸ hf
    rw [← h1] at hr
    rw [dispenseLiquid_running st v samples s2 ps2 rs2 hd] at hr
    exact hr
  | sterilize =>
    injection h with hAB
    have h1 : (startSterilization st now).1 = st' := by rw [hAB]
    rw [← h1, startSterilization_running] at hr
    exact hr
  | emergencyStopCmd =>
    injection h with hAB
    have h1 : (emergencyStop st).1 = st' := by rw [hAB]
    rw [← h1] at hr
    simp [emergencyStop] at hr
  | unknown c =>
    injection h with hAB
    have h1 : st = st' := congrArg Prod.fst hAB
    rw [← h1] at hr
    exact hr

theorem handleSerial_running (st : Ctrl) (inp : SerialInput) (now : Nat)
    (samples : List ℚ) (s1 : Ctrl) (rs1 : List Response)
    (h : handleSerial st inp now samples = some (s1, rs1)) :
    s1.isRunning = true → st.isRunning = true := by
  cases inp with
  | noInput =>
    simp only [handleSerial, Option.some.injEq, Prod.mk.injEq] at h
    obtain ⟨h1, -⟩ := h
    subst h1
    exact id
  | malformed =>
    simp only [handleSerial, Option.some.injEq, Prod.mk.injEq] at h
    obtain ⟨h1, -⟩ := h
    subst h1
    exact id
  | request c => exact processCommand_running st c now samples s1 rs1 h

theorem checkLimitSwitches_running (st : Ctrl) (rx ry rz : Bool) :
    (checkLimitSwitches st rx ry rz).1.isRunning = true → st.isRunning = true := by
  unfold checkLimitSwitches
  split
  · intro hr; simp [emergencyStop] at hr
  · exact id

theorem loopTick_running (st : Ctrl) (inp : SerialInput) (now : Nat)
    (samples : List ℚ) (rx ry rz : Bool) (st' : Ctrl) (rs : List Response)
    (h : loopTick st inp now samples rx ry rz = some (st', rs)) :
    st'.isRunning = true → st.isRunning = true := by
  cases inp with
  | malformed =>
    simp only [loopTick, Option.some.injEq, Prod.mk.injEq] at h
    obtain ⟨h1, -⟩ := h
    subst h1
    exact id
  | noInput =>
    simp only [loopTick] at h
    cases hh : handleSerial st SerialInput.noInput now samples with
    | none => rw [hh] at h; exact absurd h (by simp)
    | some p =>
      obtain ⟨s1, rs1⟩ := p
      rw [hh] at h
      simp only [Option.some.injEq, Prod.mk.injEq] at h
      obtain ⟨h1, -⟩ := h
      subst h1
      intro hr
      have h2 := checkLimitSwitches_running (sterCheck s1 now) rx ry rz hr
      rw [sterCheck_running] at h2
      exact handleSerial_running st _ now samples s1 rs1 hh h2
  | request c =>
    simp only [loopTick] at h
    cases hh : handleSerial st (SerialInput.request c) now samples with
    | none => rw [hh] at h; exact absurd h (by simp)
    | some p =>
      obtain ⟨s1, rs1⟩ := p
      rw [hh] at h
      simp only [Option.some.injEq, Prod.mk.injEq] at h
      obtain ⟨h1, -⟩ := h
      subst h1
      intro hr
      have h2 := checkLimitSwitches_running (sterCheck s1 now) rx ry rz hr
      rw [sterCheck_running] at h2
      exact handleSerial_running st _ now samples s1 rs1 hh h2

/- On a tick whose serial input is not a malformed line, `loop()` runs
the serial handler, then the sterilization check, then the limit-switch
check. -/
theorem loopTick_eq_of_handleSerial (st : Ctrl) (inp : SerialInput) (now : Nat)
    (samples : List ℚ) (rx ry rz : Bool) (s1 : Ctrl) (rs1 : List Response)
    (hm : inp ≠ SerialInput.malformed)
    (hh : handleSerial st inp now samples = some (s1, rs1)) :
    loopTick st inp now samples rx ry rz =
      some ((checkLimitSwitches (sterCheck s1 now) rx ry rz).1,
            rs1 ++ (checkLimitSwitches (sterCheck s1 now) rx ry rz).2) := by
  cases inp with
  | malformed => exact absurd rfl hm
  | noInput =>
    simp only [loopTick]
    rw [hh]
  | request c =>
    simp only [loopTick]
    rw [hh]

/-- Claim C6: issuing `STERILIZE` again while a sterilization is in
progress leaves the state — in particular the recorded start timestamp
of the FIRST call — completely unchanged and emits nothing, and on a
subsequent timer check the UV output is deasserted and the sterilizing
flag cleared exactly when the elapsed time since the first start
reaches `STERILIZATION_TIME`, not later. -/
theorem C6_sterilize_idempotent (st : Ctrl) (t0 t1 now : Nat)
    (h0 : st.isSterilizing = false) (hle : t0 ≤ now) (hlt : now < U32) :
    (startSterilization st t0).1.sterilizationStartTime = t0 ∧
    (startSterilization st t0).2 = [Response.ok] ∧
    startSterilization (startSterilization st t0).1 t1 =
      ((startSterilization st t0).1, []) ∧
    (((sterCheck (startSterilization (startSterilization st t0).1 t1).1 now).isSterilizing
        = false ∧
      (sterCheck (startSterilization (startSterilization st t0).1 t1).1 now).uv = false) ↔
     STERILIZATION_TIME ≤ now - t0) := by
  have e1 : startSterilization st t0 =
      ({ st with uv := true, isSterilizing := true, sterilizationStartTime := t0 },
       [Response.ok]) := by
    unfold startSterilization
    rw [h0]
    rfl
  rw [e1]
  have e2 : startSterilization
      ({ st with uv := true, isSterilizing := true, sterilizationStartTime := t0 } : Ctrl)
      t1 =
      ({ st with uv := true, isSterilizing := true, sterilizationStartTime := t0 }, []) := by
    unfold startSterilization
    rfl
  refine ⟨rfl, rfl, e2, ?_⟩
  rw [e2]
  simp only [sterCheck, stopSterilization]
  rw [u32sub_eq_sub now t0 hle hlt]
  by_cases hT : STERILIZATION_TIME ≤ now - t0
  · simp [hT]
  · simp [hT]

theorem C6_sterilize_idempotent_witness :
    (startSterilization bootCtrl 0).1.sterilizationStartTime = 0 ∧
    (startSterilization bootCtrl 0).2 = [Response.ok] ∧
    startSterilization (startSterilization bootCtrl 0).1 5 =
      ((startSterilization bootCtrl 0).1, []) ∧
    (((sterCheck (startSterilization (startSterilization bootCtrl 0).1 5).1
          300000).isSterilizing = false ∧
      (sterCheck (startSterilization (startSterilization bootCtrl 0).1 5).1
          300000).uv = false) ↔
     STERILIZATION_TIME ≤ 300000 - 0) :=
  C6_sterilize_idempotent bootCtrl 0 5 300000 rfl (Nat.zero_le _)
    (by norm_num [U32])

/-- Claim C7 (counterexample): a tick that receives a malformed request
line returns early and skips the sterilization check — here the state
is sterilizing with the full duration already elapsed, yet after the
tick the sterilizing flag and the UV output are still on. -/
theorem C7_malformed_skips_timer :
    loopTick sterSt SerialInput.malformed 300000 [] true true true =
      some (sterSt, [Response.error "Invalid JSON command"]) ∧
    sterSt.isSterilizing = true ∧ sterSt.uv = true ∧
    STERILIZATION_TIME ≤ u32sub 300000 sterSt.sterilizationStartTime := by
  refine ⟨rfl, rfl, rfl, ?_⟩
  norm_num [u32sub, U32, sterSt, bootCtrl, STERILIZATION_TIME]

/-- Claim C7 (amended): on every loop tick except one that consumes a
malformed request line (whose error path returns before the check), the
sterilization timer is evaluated: if after command processing the
sterilizing flag is set with elapsed time at least the fixed duration,
the tick completes with the flag cleared and the UV output deasserted. -/
theorem C7_timer_tick (st : Ctrl) (inp : SerialInput) (now : Nat)
    (samples : List ℚ) (rx ry rz : Bool) (s1 : Ctrl) (rs1 : List Response)
    (hm : inp ≠ SerialInput.malformed)
    (hh : handleSerial st inp now samples = some (s1, rs1))
    (hs : s1.isSterilizing = true)
    (hT : STERILIZATION_TIME ≤ u32sub now s1.sterilizationStartTime) :
    ∃ st' rs, loopTick st inp now samples rx ry rz = some (st', rs) ∧
      st'.isSterilizing = false ∧ st'.uv = false := by
  have hstep : sterCheck s1 now = stopSterilization s1 := by
    unfold sterCheck
    rw [hs]
    simp [hT]
  refine ⟨_, _, loopTick_eq_of_handleSerial st inp now samples rx ry rz s1 rs1 hm hh, ?_⟩
  rw [hstep]
  unfold checkLimitSwitches
  split
  · exact ⟨rfl, rfl⟩
  · exact ⟨rfl, rfl⟩

theorem C7_timer_tick_witness :
    ∃ st' rs,
      loopTick sterSt SerialInput.noInput 300000 [] true true true = some (st', rs) ∧
      st'.isSterilizing = false ∧ st'.uv = false :=
  C7_timer_tick sterSt SerialInput.noInput 300000 [] true true true sterSt []
    (by decide) rfl rfl (by norm_num [u32sub, U32, sterSt, bootCtrl, STERILIZATION_TIME])

/-- Claim C9: once `isRunning` is cleared (as the emergency stop does)
it is never set again by any sequence of subsequent loop iterations —
no handler or check assigns it true; only an external `setup()` rerun
does — so the stopped state is terminal for the session. -/
theorem C9_stopped_terminal (envs : List TickEnv) :
    ∀ st st' : Ctrl, st.isRunning = false → runTicks st envs = some st' →
      st'.isRunning = false := by
  induction envs with
  | nil =>
    intro st st' h0 h
    simp only [runTicks, Option.some.injEq] at h
    rw [← h]
    exact h0
  | cons e rest ih =>
    intro st st' h0 h
    simp only [runTicks] at h
    cases hL : loopTick st e.inp e.now e.samples e.rx e.ry e.rz with
    | none => rw [hL] at h; exact absurd h (by simp)
    | some p =>
      obtain ⟨s1, rs1⟩ := p
      rw [hL] at h
      refine ih s1 st' ?_ h
      by_contra hr
      simp only [Bool.not_eq_false] at hr
      exact absurd
        (loopTick_running st e.inp e.now e.samples e.rx e.ry e.rz s1 rs1 hL hr)
        (by simp [h0])

/- The terminally stopped state and a quiet tick environment. -/
def stoppedSt : Ctrl := (emergencyStop bootCtrl).1

def quietEnv : TickEnv :=
  { inp := SerialInput.noInput, now := 0, samples := [],
    rx := true, ry := true, rz := true }

theorem C9_stopped_terminal_witness : stoppedSt.isRunning = false :=
  C9_stopped_terminal [quietEnv] stoppedSt stoppedSt rfl rfl
